import Mathlib

/-!
# nerd-cli, `src/azure.js`: publishing to Azure and listing regions

A shallow embedding of the promise chains of `src/azure.js`.

* A promise is a function from the state of the world to an outcome
  (resolved, rejected, or never settled) and the next state of the world.
* `.then` and `.catch` are the sequencing operators `Promise.andThen` and
  `Promise.orCatch`.
* Every call that leaves the module (readline, the config store, the Azure
  SDK, `child_process.exec`, `console.log`, `util.displayAction`) appends an
  `Event` to the trace of the world, so that "which calls were made, with
  which arguments, in which order" is a statement about a list.
* What the outside answers (the login outcome, the outcome of each SDK call,
  the exit status of each shell command, whether saving the configuration
  succeeds) is an `Env`, over which every theorem is quantified.
* `saveTenantIdToConfig(tenantId)` is called without `return` (lines 173, 222):
  its `loadConfig()` is called at once, its `saveConfig` only after the chain
  has issued its next call (the location prompt, or the login), and its
  rejection reaches no `.catch`: it is recorded as an unhandled rejection.
-/

namespace NerdCli

/-! ## Values -/

/-- A JavaScript error value; only `err.message` is ever read (line 25). -/
structure JsError where
  message : String
deriving DecidableEq, Repr

/-- The configuration object: an open mapping from keys to string values, in
insertion order, as a JavaScript object keeps them. -/
abbrev Config := List (String × String)

/-- Property read `config[k]`: `none` is `undefined`. -/
def Config.get : Config → String → Option String
  | [], _ => none
  | (k', v) :: rest, k => if k' = k then some v else Config.get rest k

/-- The call `Object.assign(config, { [k]: v })` (line 36): an existing key keeps
its place and gets the new value, a new key is added at the end. -/
def Config.assign : Config → String → String → Config
  | [], k, v => [(k, v)]
  | (k', v') :: rest, k, v =>
    if k' = k then (k, v) :: rest else (k', v') :: Config.assign rest k v

/-- Truthiness of a value that is `undefined` or a string (`tenantId ? ... : ...`,
`if (tenantId)`). -/
def truthy : Option String → Bool
  | none => false
  | some s => s != ""

/-- The opaque credentials handed out by the interactive login. -/
structure Credentials where
  token : String
deriving DecidableEq, Repr

/-- A subscription as returned by the login; only `.id` is read. -/
structure Subscription where
  id : String
deriving DecidableEq, Repr

/-- A region as returned by `listLocations`. -/
structure Region where
  displayName : String
  name : String
deriving DecidableEq, Repr

/-- The object resolved by `promptForPublishParameters` (line 185). -/
structure PublishOptions where
  tenantId : String
  name : String
  location : String
deriving DecidableEq, Repr

/-- The object resolved by `auth` (line 47). `subscriptions` is `none` when the
login callback passed `undefined`. -/
structure AuthContext where
  credentials : Credentials
  subscriptions : Option (List Subscription)
deriving DecidableEq, Repr

/-- The three arguments `(err, credentials, subscriptions)` of the callback of
`msRestAzure.interactiveLogin`. -/
structure LoginResult where
  err : Option JsError
  credentials : Credentials
  subscriptions : Option (List Subscription)
deriving DecidableEq, Repr

/-! ## The world -/

deriving instance DecidableEq for Except

/-- Every call that leaves the module, with its arguments, and the report the
process gets when a promise that nobody holds rejects. -/
inductive Event where
  | rlCreate
  | question (query : String)
  | rlClose
  | loadConfig
  | saveConfig (config : Config)
  | interactiveLogin (domain : String)
  | rgCreateOrUpdate (creds : Credentials) (subscriptionId : String)
      (resourceGroupName : String) (location : String)
  | createOrUpdateSite (creds : Credentials) (subscriptionId : String)
      (resourceGroupName : String) (name : String) (siteName : String) (location : String)
  | updateSiteConfig (creds : Credentials) (subscriptionId : String)
      (resourceGroupName : String) (name : String) (scmType : String) (location : String)
      (remoteDebuggingEnabled : Bool)
  | listLocations (creds : Credentials) (subscriptionId : String)
  | exec (command : String)
  | displayAction (line : String)
  | consoleLog (line : String)
  | unhandledRejection (e : JsError)
deriving DecidableEq, Repr

/-- What `rl.question` does with the operator: it calls back with a line, or it
throws (the prompt channel failed). No reply left means the callback is never
called. -/
inductive Reply where
  | answer (line : String)
  | throws (e : JsError)
deriving DecidableEq, Repr

/-- The state of the world: what `loadConfig` currently yields, what the operator
will do at the coming prompts, the calls made so far, and the saves that were
started and not awaited (lines 173, 222) and have not yet reached their
`saveConfig`: each is what lines 35-36 yielded, the configuration to save or the
error of the load. -/
structure World where
  config : Except JsError Config
  replies : List Reply
  trace : List Event
  floating : List (Except JsError Config)
deriving DecidableEq

/-- What the outside answers to each call. -/
structure Env where
  /-- The outcome of `saveConfig(config)`: `none` when saving succeeds. -/
  saveConfig : Config → Option JsError
  /-- The arguments `msRestAzure.interactiveLogin` passes to its callback, by domain. -/
  interactiveLogin : String → LoginResult
  /-- The outcome of `client.resourceGroups.createOrUpdate`, by credentials,
  subscription id, group name and location. -/
  rgCreateOrUpdate : Credentials → String → String → String → Except JsError String
  /-- The outcome of `client.sites.createOrUpdateSite`, by credentials, subscription
  id, resource group, name, site name and location. -/
  createOrUpdateSite :
    Credentials → String → String → String → String → String → Except JsError String
  /-- The outcome of `client.sites.updateSiteConfig`, by credentials, subscription id,
  resource group, name, scm type, location and remote debugging flag. -/
  updateSiteConfig :
    Credentials → String → String → String → String → String → Bool → Except JsError String
  /-- The outcome of `client.subscriptions.listLocations`, by credentials and
  subscription id. -/
  listLocations : Credentials → String → Except JsError (List Region)
  /-- The outcome of `exec(command, cb)`: `none` when the command exits with status
  zero. -/
  exec : String → Option JsError
  /-- The `TypeError` of the engine for reading property `p` of `undefined`. -/
  propertyOfUndefined : String → JsError

/-! ## Promises -/

/-- How a promise ends. -/
inductive Outcome (α : Type) where
  | resolved (a : α)
  | rejected (e : JsError)
  | pending
deriving DecidableEq, Repr

/-- A promise: it runs in a world and leaves an outcome and a world. -/
abbrev Promise (α : Type) := World → Outcome α × World

/-- The promise `Promise.resolve(a)`. -/
def Promise.resolve {α : Type} (a : α) : Promise α := fun w => (Outcome.resolved a, w)

/-- The promise `Promise.reject(e)`. -/
def Promise.reject {α : Type} (e : JsError) : Promise α := fun w => (Outcome.rejected e, w)

/-- The chain `p.then(f)`: `f` runs only when `p` resolved. -/
def Promise.andThen {α β : Type} (p : Promise α) (f : α → Promise β) : Promise β :=
  fun w =>
    match p w with
    | (Outcome.resolved a, w1) => f a w1
    | (Outcome.rejected e, w1) => (Outcome.rejected e, w1)
    | (Outcome.pending, w1) => (Outcome.pending, w1)

/-- The chain `p.catch(h)`: `h` runs only when `p` rejected. -/
def Promise.orCatch {α : Type} (p : Promise α) (h : JsError → Promise α) : Promise α :=
  fun w =>
    match p w with
    | (Outcome.resolved a, w1) => (Outcome.resolved a, w1)
    | (Outcome.rejected e, w1) => h e w1
    | (Outcome.pending, w1) => (Outcome.pending, w1)

/-- A chain `first.then(last)` that is started and whose promise is dropped
(`saveTenantIdToConfig(tenantId);` without `return`, lines 173 and 222). The call
of `first` is made at once; what it yields waits in `floating` for `last`, which
runs only after the chain of the caller has gone on and issued its next call. The
chain of the caller goes on with `undefined`, whatever `first` yields. -/
def Promise.detached (first : Promise Config) : Promise Unit :=
  fun w =>
    match first w with
    | (Outcome.resolved c, w1) =>
      (Outcome.resolved (), { w1 with floating := w1.floating ++ [Except.ok c] })
    | (Outcome.rejected e, w1) =>
      (Outcome.resolved (), { w1 with floating := w1.floating ++ [Except.error e] })
    | (Outcome.pending, w1) => (Outcome.resolved (), w1)

/-- Append one call to the trace. -/
def emit (ev : Event) : Promise Unit :=
  fun w => (Outcome.resolved (), { w with trace := w.trace ++ [ev] })

/-! ## The collaborators -/

/-- The call `readline.createInterface(...)`. -/
def rlCreate : Promise Unit := emit Event.rlCreate

/-- The call `rl.close()`. -/
def rlClose : Promise Unit := emit Event.rlClose

/-- Modelled from the spec: `configManagement.loadConfig` of `./config`, "external
key-value persisted store, read via `loadConfig()`"; it yields the stored mapping
or fails. -/
def loadConfig : Promise Config :=
  fun w =>
    let w1 : World := { w with trace := w.trace ++ [Event.loadConfig] }
    match w.config with
    | Except.ok c => (Outcome.resolved c, w1)
    | Except.error e => (Outcome.rejected e, w1)

/-- Modelled from the spec: `configManagement.saveConfig` of `./config`, "written via
`saveConfig(config)`"; when it succeeds the stored mapping is the one given. -/
def saveConfig (env : Env) (c : Config) : Promise Unit :=
  fun w =>
    let w1 : World := { w with trace := w.trace ++ [Event.saveConfig c] }
    match env.saveConfig c with
    | none => (Outcome.resolved (), { w1 with config := Except.ok c })
    | some e => (Outcome.rejected e, w1)

/-- The end of a save that was started and not awaited: line 37 calls `saveConfig`
when lines 35-36 yielded a configuration. Nobody holds the promise, so a rejection
(of the load, or of the save) reaches no `.catch`: the process gets an unhandled
rejection. What the host then does (a warning, or the end of the process on later
versions of Node) is outside the module and not modelled. -/
def finishSave (env : Env) (loaded : Except JsError Config) (w : World) : World :=
  match loaded with
  | Except.error e => { w with trace := w.trace ++ [Event.unhandledRejection e] }
  | Except.ok c =>
    match saveConfig env c w with
    | (Outcome.rejected e, w1) => { w1 with trace := w1.trace ++ [Event.unhandledRejection e] }
    | (_, w1) => w1

/-- Every save that was started and not awaited runs to its end, in the order in
which they were started. -/
def settleFloating (env : Env) (w : World) : World :=
  w.floating.foldl (fun w1 loaded => finishSave env loaded w1) { w with floating := [] }

/-- The call `rl.question(query, cb)`, as the promise of the line `cb` receives.
Between the call and the callback the chain waits for the operator: a save that
was started and not awaited just before (line 173 before line 177) runs to its
end in that time. -/
def question (env : Env) (query : String) : Promise String :=
  fun w =>
    let w1 : World := settleFloating env { w with trace := w.trace ++ [Event.question query] }
    match w.replies with
    | [] => (Outcome.pending, w1)
    | Reply.answer line :: rest => (Outcome.resolved line, { w1 with replies := rest })
    | Reply.throws e :: rest => (Outcome.rejected e, { w1 with replies := rest })

/-- The call `console.log(line)`. -/
def consoleLog (line : String) : Promise Unit := emit (Event.consoleLog line)

/-- The call `util.displayAction(line)` of `./apputil`. -/
def displayAction (line : String) : Promise Unit := emit (Event.displayAction line)

/-- The expression `auth.subscriptions[0].id` (lines 81, 103, 124): a `TypeError`
when there is no list or no first element. -/
def firstSubscriptionId (env : Env) (a : AuthContext) : Except JsError String :=
  match a.subscriptions with
  | none => Except.error (env.propertyOfUndefined "0")
  | some [] => Except.error (env.propertyOfUndefined "id")
  | some (s :: _) => Except.ok s.id

/-- A node-style callback `(err, result) => err ? reject(err) : resolve(result)`
after the call `ev` was made. -/
def callback {α : Type} (ev : Event) (r : Except JsError α) : Promise α :=
  fun w =>
    let w1 : World := { w with trace := w.trace ++ [ev] }
    match r with
    | Except.ok a => (Outcome.resolved a, w1)
    | Except.error e => (Outcome.rejected e, w1)

/-! ## `src/azure.js` -/

/-- Lines 28-32. -/
def getTenantIdFromConfig : Promise (Option String) :=
  Promise.orCatch
    (Promise.andThen loadConfig fun config => Promise.resolve (config.get "tenantId"))
    (fun _ => Promise.resolve (some ""))

/-- Lines 35-36: `loadConfig().then(config => Object.assign(config, { tenantId }))`. -/
def assignTenantId (tenantId : String) : Promise Config :=
  Promise.andThen loadConfig fun config =>
    Promise.resolve (config.assign "tenantId" tenantId)

/-- Lines 34-38, for a caller that holds the promise. -/
def saveTenantIdToConfig (env : Env) (tenantId : String) : Promise Unit :=
  Promise.andThen (assignTenantId tenantId) (fun config => saveConfig env config)

/-- Lines 40-50. -/
def auth (env : Env) (tenantId : String) : Promise AuthContext :=
  fun w =>
    let w1 : World := { w with trace := w.trace ++ [Event.interactiveLogin tenantId] }
    let r := env.interactiveLogin tenantId
    match r.err with
    | some err => (Outcome.rejected err, w1)
    | none => (Outcome.resolved ⟨r.credentials, r.subscriptions⟩, w1)

/-- Lines 52-59. -/
def displayGitCredentialsMessage : Promise Unit :=
  Promise.andThen (displayAction "First time with local git deployment to Azure App Service?") fun _ =>
  Promise.andThen (displayAction " 1. In your browser, navigate to https://portal.azure.com") fun _ =>
  Promise.andThen (displayAction " 2. Find your web app resource group and navigate to it") fun _ =>
  Promise.andThen (displayAction " 3. Click on the App Service in your resource group") fun _ =>
  Promise.andThen (displayAction " 4. Navigate to the `Deployment credentials` section") fun _ =>
  displayAction " 5. Add/change your git deployment credentials and save"

/-- Lines 61-77. -/
def fixGitRemotes (env : Env) (webAppName : String) : Promise Unit :=
  fun w =>
    let w1 : World := { w with trace := w.trace ++ [Event.exec "git remote remove origin"] }
    match env.exec "git remote remove origin" with
    | some err => (Outcome.rejected err, w1)
    | none =>
      let cmd := "git remote add azure https://" ++ webAppName
        ++ ".scm.azurewebsites.net:443/" ++ webAppName ++ ".git"
      let w2 : World := { w1 with trace := w1.trace ++ [Event.exec cmd] }
      match env.exec cmd with
      | some err => (Outcome.rejected err, w2)
      | none => (Outcome.resolved (), w2)

/-- Lines 79-99. -/
def enableGitPushDeploy (env : Env) (a : AuthContext) (options : PublishOptions) :
    Promise String :=
  match firstSubscriptionId env a with
  | Except.error e => Promise.reject e
  | Except.ok id =>
    callback
      (Event.updateSiteConfig a.credentials id options.name options.name "LocalGit"
        options.location true)
      (env.updateSiteConfig a.credentials id options.name options.name "LocalGit"
        options.location true)

/-- Lines 101-120. -/
def createWebApp (env : Env) (a : AuthContext) (options : PublishOptions) :
    Promise String :=
  match firstSubscriptionId env a with
  | Except.error e => Promise.reject e
  | Except.ok id =>
    callback
      (Event.createOrUpdateSite a.credentials id options.name options.name options.name
        options.location)
      (env.createOrUpdateSite a.credentials id options.name options.name options.name
        options.location)

/-- Lines 122-138. -/
def createResourceGroup (env : Env) (a : AuthContext) (options : PublishOptions) :
    Promise String :=
  match firstSubscriptionId env a with
  | Except.error e => Promise.reject e
  | Except.ok id =>
    callback
      (Event.rgCreateOrUpdate a.credentials id options.name options.location)
      (env.rgCreateOrUpdate a.credentials id options.name options.location)

/-- The text of the tenant prompt (lines 152 and 201). -/
def tenantQuery (tenantId : Option String) : String :=
  "(optional) Tenant ID [default: "
    ++ (if truthy tenantId then tenantId.getD "" else "none") ++ "]: "

/-- Lines 150-170, and the same code again at lines 199-219: the tenant prompt.
The first component is the value given to `resolve` (`none` for the bare
`resolve()`), the second the value assigned to `parentTenantId`. -/
def askTenantId (env : Env) (tenantId : Option String) :
    Promise (Option String × String) :=
  Promise.andThen (question env (tenantQuery tenantId)) fun inputTenantId =>
    if truthy (some inputTenantId) then
      Promise.resolve (some inputTenantId, inputTenantId)
    else if !truthy (some inputTenantId) && truthy tenantId then
      Promise.resolve (tenantId, tenantId.getD "")
    else
      Promise.resolve (none, "")

/-- Lines 171-175, and again lines 220-224: `saveTenantIdToConfig(tenantId)` is
called and its promise dropped, so lines 35-36 are started here and the
`saveConfig` of line 37 is left to `settleFloating`. -/
def cacheTenantId (tenantId : Option String) : Promise Unit :=
  if truthy tenantId then
    Promise.detached (assignTenantId (tenantId.getD ""))
  else
    Promise.resolve ()

/-- Lines 149-175, and the same code again at lines 198-224: read the cached
tenant id, ask for one, cache the answer; the result is `parentTenantId`. -/
def promptForTenantId (env : Env) : Promise String :=
  Promise.andThen getTenantIdFromConfig fun tenantId =>
  Promise.andThen (askTenantId env tenantId) fun asked =>
  Promise.andThen (cacheTenantId asked.1) fun _ =>
  Promise.resolve asked.2

/-- Lines 140-188. -/
def promptForPublishParameters (env : Env) : Promise PublishOptions :=
  Promise.andThen rlCreate fun _ =>
  Promise.andThen (promptForTenantId env) fun parentTenantId =>
  Promise.andThen (question env "Location (found by running `nerd regions`): ")
    fun location =>
  Promise.andThen (question env "Web app name: ") fun name =>
  Promise.andThen rlClose fun _ =>
  Promise.resolve { tenantId := parentTenantId, name := name, location := location }

/-- Lines 12-24: the chain of `publish` before its `.catch`. -/
def publishSteps (env : Env) : Promise Unit :=
  Promise.andThen (promptForPublishParameters env) fun output =>
  Promise.andThen (auth env output.tenantId) fun a =>
  Promise.andThen (createResourceGroup env a output) fun _ =>
  Promise.andThen (createWebApp env a output) fun _ =>
  Promise.andThen (enableGitPushDeploy env a output) fun _ =>
  Promise.andThen (fixGitRemotes env output.name) fun _ =>
  displayGitCredentialsMessage

/-- Lines 9-26. -/
def publish (env : Env) : Promise Unit :=
  Promise.orCatch (publishSteps env)
    (fun err => consoleLog ("Azure publishing error: " ++ err.message))

/-- Lines 239-241: one `console.log` per region. -/
def printRegions : List Region → Promise Unit
  | [] => Promise.resolve ()
  | region :: rest =>
    Promise.andThen (consoleLog (region.displayName ++ " (" ++ region.name ++ ")")) fun _ =>
      printRegions rest

/-- Lines 225-246: the login and the listing. Between the call of the login and
its callback the chain waits: a save that was started and not awaited just before
(line 222) runs to its end in that time. -/
def loginAndList (env : Env) (parentTenantId : String) : Promise Unit :=
  fun w =>
    let w1 : World := settleFloating env
      { w with trace := w.trace ++ [Event.interactiveLogin parentTenantId] }
    let r := env.interactiveLogin parentTenantId
    match r.subscriptions with
    | none =>
      (Outcome.rejected ⟨"Unable to retrieve subscriptions"⟩,
        { w1 with trace := w1.trace ++ [Event.rlClose] })
    | some [] =>
      (Outcome.rejected ⟨"Unable to retrieve subscriptions"⟩,
        { w1 with trace := w1.trace ++ [Event.rlClose] })
    | some (s :: _) =>
      let w2 : World :=
        { w1 with trace := w1.trace ++ [Event.listLocations r.credentials s.id] }
      match env.listLocations r.credentials s.id with
      | Except.error err =>
        (Outcome.rejected err, { w2 with trace := w2.trace ++ [Event.rlClose] })
      | Except.ok result =>
        Promise.andThen (printRegions result) (fun _ => rlClose) w2

/-- Lines 190-247. -/
def listRegions (env : Env) : Promise Unit :=
  Promise.andThen rlCreate fun _ =>
  Promise.andThen (promptForTenantId env) fun parentTenantId =>
  loginAndList env parentTenantId

/-! ## Concrete environments and worlds -/

/-- An outside where every call succeeds; the login yields one subscription,
`sub-1`, and the listing two regions. -/
def okEnv : Env where
  saveConfig := fun _ => none
  interactiveLogin := fun _ => ⟨none, ⟨"token"⟩, some [⟨"sub-1"⟩]⟩
  rgCreateOrUpdate := fun _ _ _ _ => Except.ok "group"
  createOrUpdateSite := fun _ _ _ _ _ _ => Except.ok "site"
  updateSiteConfig := fun _ _ _ _ _ _ _ => Except.ok "config"
  listLocations := fun _ _ => Except.ok [⟨"West US", "westus"⟩, ⟨"North Europe", "northeurope"⟩]
  exec := fun _ => none
  propertyOfUndefined := fun p => ⟨"Cannot read property " ++ p ++ " of undefined"⟩

/-- A world with the given stored configuration and operator lines, no call made
yet and no save under way. -/
def startWorld (config : Except JsError Config) (lines : List String) : World :=
  { config := config, replies := lines.map Reply.answer, trace := [], floating := [] }

/-- An outside where `git remote remove origin` fails: there is no such remote. -/
def noOriginEnv : Env :=
  { okEnv with
    exec := fun c =>
      if c = "git remote remove origin" then some ⟨"error: No such remote: origin"⟩ else none }

/-- An outside where creating the resource group fails. -/
def rgFailEnv : Env :=
  { okEnv with rgCreateOrUpdate := fun _ _ _ _ => Except.error ⟨"quota exceeded"⟩ }

/-- An outside where saving the configuration fails. -/
def saveFailEnv : Env :=
  { okEnv with saveConfig := fun _ => some ⟨"disk full"⟩ }

/-- An outside where the login yields an empty list of subscriptions. -/
def noSubscriptionEnv : Env :=
  { okEnv with interactiveLogin := fun _ => ⟨none, ⟨"token"⟩, some []⟩ }

/-! ## Reading a trace -/

/-- The promise `p` makes no call that `f` selects, whatever the world. -/
def Quiet {α : Type} (f : Event → Bool) (p : Promise α) : Prop :=
  ∀ w, (p w).2.trace.filter f = w.trace.filter f

/-- The report of a rejection of the promise of a save nobody awaited; none for a
promise that resolved. -/
def unhandled : Option JsError → List Event
  | none => []
  | some e => [Event.unhandledRejection e]

/-- The unhandled rejections. -/
def Event.isUnhandled : Event → Bool
  | Event.unhandledRejection _ => true
  | _ => false

/-- The calls to `saveConfig`. -/
def Event.isSave : Event → Bool
  | Event.saveConfig _ => true
  | _ => false

/-- The calls to `rl.close`. -/
def Event.isClose : Event → Bool
  | Event.rlClose => true
  | _ => false

/-- The calls to `listLocations`. -/
def Event.isListLocations : Event → Bool
  | Event.listLocations _ _ => true
  | _ => false

/-- The lines printed, through `console.log` or `util.displayAction`. -/
def Event.isOutput : Event → Bool
  | Event.consoleLog _ => true
  | Event.displayAction _ => true
  | _ => false

/-- The calls of the provisioning pipeline: the three SDK calls, the shell
commands and the help message. -/
def Event.isProvisioning : Event → Bool
  | Event.rgCreateOrUpdate _ _ _ _ => true
  | Event.createOrUpdateSite _ _ _ _ _ _ => true
  | Event.updateSiteConfig _ _ _ _ _ _ _ => true
  | Event.exec _ => true
  | Event.displayAction _ => true
  | _ => false

/-- The calls that follow the creation of the resource group in `publish`. -/
def Event.isAfterResourceGroup : Event → Bool
  | Event.createOrUpdateSite _ _ _ _ _ _ => true
  | Event.updateSiteConfig _ _ _ _ _ _ _ => true
  | Event.exec _ => true
  | Event.displayAction _ => true
  | _ => false

/-- The steps of the chain of `publish` that can raise an error. -/
inductive Step where
  | prompting
  | auth
  | createResourceGroup
  | createWebApp
  | enableGitPushDeploy
  | fixGitRemotes
deriving DecidableEq, Repr

/-- Step `s` of `publish` rejected with `e`: the promise of every step before `s`
resolved and the promise of `s` rejected with `e`. -/
def raisesAt (env : Env) (w : World) (e : JsError) : Step → Prop
  | Step.prompting => ∃ w1, promptForPublishParameters env w = (Outcome.rejected e, w1)
  | Step.auth => ∃ o w1 w2,
      promptForPublishParameters env w = (Outcome.resolved o, w1) ∧
      auth env o.tenantId w1 = (Outcome.rejected e, w2)
  | Step.createResourceGroup => ∃ o w1 a w2 w3,
      promptForPublishParameters env w = (Outcome.resolved o, w1) ∧
      auth env o.tenantId w1 = (Outcome.resolved a, w2) ∧
      createResourceGroup env a o w2 = (Outcome.rejected e, w3)
  | Step.createWebApp => ∃ o w1 a w2 r3 w3 w4,
      promptForPublishParameters env w = (Outcome.resolved o, w1) ∧
      auth env o.tenantId w1 = (Outcome.resolved a, w2) ∧
      createResourceGroup env a o w2 = (Outcome.resolved r3, w3) ∧
      createWebApp env a o w3 = (Outcome.rejected e, w4)
  | Step.enableGitPushDeploy => ∃ o w1 a w2 r3 w3 r4 w4 w5,
      promptForPublishParameters env w = (Outcome.resolved o, w1) ∧
      auth env o.tenantId w1 = (Outcome.resolved a, w2) ∧
      createResourceGroup env a o w2 = (Outcome.resolved r3, w3) ∧
      createWebApp env a o w3 = (Outcome.resolved r4, w4) ∧
      enableGitPushDeploy env a o w4 = (Outcome.rejected e, w5)
  | Step.fixGitRemotes => ∃ o w1 a w2 r3 w3 r4 w4 r5 w5 w6,
      promptForPublishParameters env w = (Outcome.resolved o, w1) ∧
      auth env o.tenantId w1 = (Outcome.resolved a, w2) ∧
      createResourceGroup env a o w2 = (Outcome.resolved r3, w3) ∧
      createWebApp env a o w3 = (Outcome.resolved r4, w4) ∧
      enableGitPushDeploy env a o w4 = (Outcome.resolved r5, w5) ∧
      fixGitRemotes env o.name w5 = (Outcome.rejected e, w6)

/-! ## Lemmas on promises -/

theorem quiet_resolve {α : Type} (f : Event → Bool) (a : α) : Quiet f (Promise.resolve a) :=
  fun _ => rfl

theorem quiet_reject {α : Type} (f : Event → Bool) (e : JsError) :
    Quiet f (Promise.reject e : Promise α) :=
  fun _ => rfl

theorem quiet_andThen {α β : Type} {f : Event → Bool} {p : Promise α} {k : α → Promise β}
    (hp : Quiet f p) (hk : ∀ a, Quiet f (k a)) : Quiet f (Promise.andThen p k) := by
  intro w
  have h1 := hp w
  unfold Promise.andThen
  rcases h : p w with ⟨o, w1⟩
  rw [h] at h1
  cases o with
  | resolved a => exact (hk a w1).trans h1
  | rejected e => exact h1
  | pending => exact h1

theorem quiet_orCatch {α : Type} {f : Event → Bool} {p : Promise α} {k : JsError → Promise α}
    (hp : Quiet f p) (hk : ∀ e, Quiet f (k e)) : Quiet f (Promise.orCatch p k) := by
  intro w
  have h1 := hp w
  unfold Promise.orCatch
  rcases h : p w with ⟨o, w1⟩
  rw [h] at h1
  cases o with
  | resolved a => exact h1
  | rejected e => exact (hk e w1).trans h1
  | pending => exact h1

theorem quiet_detached {f : Event → Bool} {first : Promise Config} (hp : Quiet f first) :
    Quiet f (Promise.detached first) := by
  intro w
  have h1 := hp w
  unfold Promise.detached
  rcases h : first w with ⟨o, w1⟩
  rw [h] at h1
  cases o <;> exact h1

theorem quiet_emit {f : Event → Bool} {ev : Event} (h : f ev = false) : Quiet f (emit ev) := by
  intro w
  simp [emit, List.filter_append, h]

theorem quiet_loadConfig {f : Event → Bool} (h : f Event.loadConfig = false) :
    Quiet f loadConfig := by
  intro w
  unfold loadConfig
  cases hc : w.config <;> simp [List.filter_append, h]

theorem quiet_saveConfig {f : Event → Bool} (env : Env) (c : Config)
    (h : f (Event.saveConfig c) = false) : Quiet f (saveConfig env c) := by
  intro w
  unfold saveConfig
  cases hc : env.saveConfig c <;> simp [List.filter_append, h]

theorem finishSave_filter {f : Event → Bool} (env : Env) (loaded : Except JsError Config)
    (w : World) (hs : ∀ c, f (Event.saveConfig c) = false)
    (hu : ∀ e, f (Event.unhandledRejection e) = false) :
    (finishSave env loaded w).trace.filter f = w.trace.filter f := by
  cases loaded with
  | error e => simp [finishSave, List.filter_append, hu]
  | ok c =>
    cases hc : env.saveConfig c <;>
      simp [finishSave, saveConfig, hc, List.filter_append, hs, hu]

theorem foldl_finishSave_filter {f : Event → Bool} (env : Env)
    (hs : ∀ c, f (Event.saveConfig c) = false)
    (hu : ∀ e, f (Event.unhandledRejection e) = false)
    (l : List (Except JsError Config)) (w : World) :
    (l.foldl (fun w1 loaded => finishSave env loaded w1) w).trace.filter f
      = w.trace.filter f := by
  induction l generalizing w with
  | nil => rfl
  | cons loaded rest ih =>
    rw [List.foldl_cons, ih, finishSave_filter env loaded w hs hu]

theorem settleFloating_filter {f : Event → Bool} (env : Env) (w : World)
    (hs : ∀ c, f (Event.saveConfig c) = false)
    (hu : ∀ e, f (Event.unhandledRejection e) = false) :
    (settleFloating env w).trace.filter f = w.trace.filter f := by
  unfold settleFloating
  rw [foldl_finishSave_filter env hs hu]

theorem quiet_question {f : Event → Bool} (env : Env) (query : String)
    (h : f (Event.question query) = false) (hs : ∀ c, f (Event.saveConfig c) = false)
    (hu : ∀ e, f (Event.unhandledRejection e) = false) : Quiet f (question env query) := by
  intro w
  have hset := settleFloating_filter (f := f) env
    { w with trace := w.trace ++ [Event.question query] } hs hu
  simp only [List.filter_append] at hset
  unfold question
  dsimp only
  split <;> simpa [h] using hset

theorem quiet_callback {α : Type} {f : Event → Bool} (ev : Event) (r : Except JsError α)
    (h : f ev = false) : Quiet f (callback ev r) := by
  intro w
  unfold callback
  cases r <;> simp [List.filter_append, h]

theorem quiet_getTenantIdFromConfig {f : Event → Bool} (h : f Event.loadConfig = false) :
    Quiet f getTenantIdFromConfig :=
  quiet_orCatch (quiet_andThen (quiet_loadConfig h) (fun _ => quiet_resolve f _))
    (fun _ => quiet_resolve f _)

theorem quiet_assignTenantId {f : Event → Bool} (tenantId : String)
    (hl : f Event.loadConfig = false) : Quiet f (assignTenantId tenantId) :=
  quiet_andThen (quiet_loadConfig hl) (fun _ => quiet_resolve f _)

theorem quiet_saveTenantIdToConfig {f : Event → Bool} (env : Env) (tenantId : String)
    (hl : f Event.loadConfig = false) (hs : ∀ c, f (Event.saveConfig c) = false) :
    Quiet f (saveTenantIdToConfig env tenantId) :=
  quiet_andThen (quiet_assignTenantId tenantId hl) (fun c => quiet_saveConfig env c (hs c))

theorem quiet_askTenantId {f : Event → Bool} (env : Env) (tenantId : Option String)
    (hq : ∀ q, f (Event.question q) = false) (hs : ∀ c, f (Event.saveConfig c) = false)
    (hu : ∀ e, f (Event.unhandledRejection e) = false) :
    Quiet f (askTenantId env tenantId) := by
  refine quiet_andThen (quiet_question env _ (hq _) hs hu) (fun inputTenantId => ?_)
  split
  · exact quiet_resolve f _
  · split
    · exact quiet_resolve f _
    · exact quiet_resolve f _

theorem quiet_cacheTenantId {f : Event → Bool} (tenantId : Option String)
    (hl : f Event.loadConfig = false) : Quiet f (cacheTenantId tenantId) := by
  unfold cacheTenantId
  split
  · exact quiet_detached (quiet_assignTenantId _ hl)
  · exact quiet_resolve f _

theorem quiet_promptForTenantId {f : Event → Bool} (env : Env)
    (hq : ∀ q, f (Event.question q) = false)
    (hl : f Event.loadConfig = false) (hs : ∀ c, f (Event.saveConfig c) = false)
    (hu : ∀ e, f (Event.unhandledRejection e) = false) :
    Quiet f (promptForTenantId env) :=
  quiet_andThen (quiet_getTenantIdFromConfig hl) fun _ =>
  quiet_andThen (quiet_askTenantId env _ hq hs hu) fun _ =>
  quiet_andThen (quiet_cacheTenantId _ hl) fun _ =>
  quiet_resolve f _

theorem quiet_promptForPublishParameters {f : Event → Bool} (env : Env)
    (hc : f Event.rlCreate = false) (hq : ∀ q, f (Event.question q) = false)
    (hl : f Event.loadConfig = false) (hs : ∀ c, f (Event.saveConfig c) = false)
    (hx : f Event.rlClose = false) (hu : ∀ e, f (Event.unhandledRejection e) = false) :
    Quiet f (promptForPublishParameters env) :=
  quiet_andThen (quiet_emit hc) fun _ =>
  quiet_andThen (quiet_promptForTenantId env hq hl hs hu) fun _ =>
  quiet_andThen (quiet_question env _ (hq _) hs hu) fun _ =>
  quiet_andThen (quiet_question env _ (hq _) hs hu) fun _ =>
  quiet_andThen (quiet_emit hx) fun _ =>
  quiet_resolve f _

theorem quiet_auth {f : Event → Bool} (env : Env) (tenantId : String)
    (h : f (Event.interactiveLogin tenantId) = false) : Quiet f (auth env tenantId) := by
  intro w
  unfold auth
  cases he : (env.interactiveLogin tenantId).err <;> simp [he, List.filter_append, h]

theorem quiet_printRegions {f : Event → Bool} (hlog : ∀ l, f (Event.consoleLog l) = false)
    (regions : List Region) : Quiet f (printRegions regions) := by
  induction regions with
  | nil => exact quiet_resolve f _
  | cons region rest ih => exact quiet_andThen (quiet_emit (hlog _)) (fun _ => ih)

theorem printRegions_resolved (regions : List Region) (w : World) :
    (printRegions regions w).1 = Outcome.resolved () := by
  induction regions generalizing w with
  | nil => rfl
  | cons region rest ih =>
    simp only [printRegions, Promise.andThen, consoleLog, emit]
    exact ih _

theorem Quiet.of_eq {α : Type} {f : Event → Bool} {p : Promise α} (hq : Quiet f p)
    {w w1 : World} {o : Outcome α} (h : p w = (o, w1)) :
    w1.trace.filter f = w.trace.filter f := by
  have h1 := hq w
  rw [h] at h1
  exact h1

theorem quiet_fixGitRemotes {f : Event → Bool} (env : Env) (webAppName : String)
    (h : ∀ c, f (Event.exec c) = false) : Quiet f (fixGitRemotes env webAppName) := by
  intro w
  unfold fixGitRemotes
  cases h1 : env.exec "git remote remove origin" with
  | some err => simp [List.filter_append, h]
  | none =>
    cases h2 : env.exec ("git remote add azure https://" ++ webAppName
        ++ ".scm.azurewebsites.net:443/" ++ webAppName ++ ".git") <;>
      simp [h2, List.filter_append, h]

theorem quiet_createResourceGroup {f : Event → Bool} (env : Env) (a : AuthContext)
    (options : PublishOptions) (h : ∀ c s n l, f (Event.rgCreateOrUpdate c s n l) = false) :
    Quiet f (createResourceGroup env a options) := by
  unfold createResourceGroup
  split
  · exact quiet_reject f _
  · exact quiet_callback _ _ (h _ _ _ _)

theorem quiet_createWebApp {f : Event → Bool} (env : Env) (a : AuthContext)
    (options : PublishOptions)
    (h : ∀ c s g n m l, f (Event.createOrUpdateSite c s g n m l) = false) :
    Quiet f (createWebApp env a options) := by
  unfold createWebApp
  split
  · exact quiet_reject f _
  · exact quiet_callback _ _ (h _ _ _ _ _ _)

theorem quiet_enableGitPushDeploy {f : Event → Bool} (env : Env) (a : AuthContext)
    (options : PublishOptions)
    (h : ∀ c s g n t l d, f (Event.updateSiteConfig c s g n t l d) = false) :
    Quiet f (enableGitPushDeploy env a options) := by
  unfold enableGitPushDeploy
  split
  · exact quiet_reject f _
  · exact quiet_callback _ _ (h _ _ _ _ _ _ _)

/-! ## Lemmas on the configuration object -/

theorem Config.get_assign_same (c : Config) (k v : String) :
    (c.assign k v).get k = some v := by
  induction c with
  | nil => simp [Config.assign, Config.get]
  | cons kv rest ih =>
    obtain ⟨k1, v1⟩ := kv
    by_cases h : k1 = k
    · simp [Config.assign, Config.get, h]
    · simp [Config.assign, Config.get, h, ih]

theorem Config.get_assign_other (c : Config) (k v k2 : String) (hk : k2 ≠ k) :
    (c.assign k v).get k2 = c.get k2 := by
  induction c with
  | nil => simp [Config.assign, Config.get, Ne.symm hk]
  | cons kv rest ih =>
    obtain ⟨k1, v1⟩ := kv
    by_cases h : k1 = k
    · subst h
      simp [Config.assign, Config.get, Ne.symm hk]
    · simp only [Config.assign, if_neg h, Config.get, ih]

theorem Config.assign_of_get (c : Config) (k v : String) (h : c.get k = some v) :
    c.assign k v = c := by
  induction c with
  | nil => simp [Config.get] at h
  | cons kv rest ih =>
    obtain ⟨k1, v1⟩ := kv
    by_cases hk : k1 = k
    · simp [Config.get, hk] at h
      simp [Config.assign, hk, h]
    · simp [Config.get, hk] at h
      simp [Config.assign, hk, ih h]

/-! ## The tenant prompt (lines 140-188) -/

/-- C1, as the code has it: with a non-empty cached tenant id `T1` and an empty
answer at the tenant prompt, `promptForPublishParameters` resolves with tenant id
`T1`, and it does call `saveConfig`, once, with the loaded configuration, whose
`tenantId` was set to `T1` again; the stored configuration is what it was. The
call comes after the location prompt is issued, and a failure of it is left as
an unhandled rejection. -/
theorem promptForPublishParameters_cached_tenant (env : Env) (cfg : Config)
    (T1 loc name : String) (rest : List Reply) (tr : List Event)
    (hcached : cfg.get "tenantId" = some T1) (hne : T1 ≠ "") :
    promptForPublishParameters env
        ⟨Except.ok cfg, Reply.answer "" :: Reply.answer loc :: Reply.answer name :: rest, tr,
          []⟩
      = (Outcome.resolved ⟨T1, name, loc⟩,
          ⟨Except.ok cfg, rest,
            tr ++ [Event.rlCreate, Event.loadConfig,
              Event.question ("(optional) Tenant ID [default: " ++ T1 ++ "]: "),
              Event.loadConfig, Event.question "Location (found by running `nerd regions`): ",
              Event.saveConfig cfg]
              ++ unhandled (env.saveConfig cfg)
              ++ [Event.question "Web app name: ", Event.rlClose], []⟩)
    ∧ cfg.assign "tenantId" T1 = cfg := by
  have hassign := Config.assign_of_get cfg "tenantId" T1 hcached
  refine ⟨?_, hassign⟩
  cases hs : env.saveConfig cfg <;>
    simp [promptForPublishParameters, promptForTenantId, getTenantIdFromConfig, askTenantId,
      cacheTenantId, assignTenantId, settleFloating, finishSave, unhandled,
      saveConfig, loadConfig, question, rlCreate, rlClose, emit, tenantQuery, truthy,
      Promise.andThen, Promise.orCatch, Promise.resolve,
      Promise.detached, hcached, hne, hassign, hs]

/-- An instance of the preceding theorem: at the configuration
with `tenantId` `T1` and the answers (empty), `westus`, `myapp`. -/
theorem promptForPublishParameters_cached_tenant_witness :
    Config.get [("tenantId", "T1")] "tenantId" = some "T1" ∧ "T1" ≠ "" ∧
    (promptForPublishParameters okEnv
        ⟨Except.ok [("tenantId", "T1")],
          [Reply.answer "", Reply.answer "westus", Reply.answer "myapp"], [], []⟩
      = (Outcome.resolved ⟨"T1", "myapp", "westus"⟩,
          ⟨Except.ok [("tenantId", "T1")], [],
            [] ++ [Event.rlCreate, Event.loadConfig,
              Event.question ("(optional) Tenant ID [default: " ++ "T1" ++ "]: "),
              Event.loadConfig, Event.question "Location (found by running `nerd regions`): ",
              Event.saveConfig [("tenantId", "T1")]]
              ++ unhandled (okEnv.saveConfig [("tenantId", "T1")])
              ++ [Event.question "Web app name: ", Event.rlClose], []⟩)
    ∧ Config.assign [("tenantId", "T1")] "tenantId" "T1" = [("tenantId", "T1")]) :=
  ⟨by decide, by decide,
    promptForPublishParameters_cached_tenant okEnv [("tenantId", "T1")] "T1" "westus" "myapp"
      [] [] (by decide) (by decide)⟩

/-- C1, as the claim states it, fails: with the configuration whose `tenantId` is
`T1` and an empty answer at the tenant prompt, the tenant id is `T1`, and yet
`saveConfig` is called. -/
theorem promptForPublishParameters_cached_tenant_saves :
    ¬ ((promptForPublishParameters okEnv
          (startWorld (Except.ok [("tenantId", "T1")]) ["", "westus", "myapp"])).1
        = Outcome.resolved ⟨"T1", "myapp", "westus"⟩
      ∧ (promptForPublishParameters okEnv
          (startWorld (Except.ok [("tenantId", "T1")]) ["", "westus", "myapp"])).2.trace.filter
            Event.isSave = []) := by
  decide

/-- C2: with a stored configuration `cfg` and a non-empty answer `T2` at the tenant
prompt, `promptForPublishParameters` resolves with tenant id `T2`, and `saveConfig`
is called once, with `cfg` whose `tenantId` is set to `T2`: that key reads `T2`,
every other key reads as in `cfg`; when the save succeeds this is the stored
configuration. The call comes after the location prompt is issued, and a failure
of it is left as an unhandled rejection. -/
theorem promptForPublishParameters_entered_tenant (env : Env) (cfg : Config)
    (T2 loc name : String) (rest : List Reply) (tr : List Event) (hne : T2 ≠ "") :
    (promptForPublishParameters env
        ⟨Except.ok cfg, Reply.answer T2 :: Reply.answer loc :: Reply.answer name :: rest,
          tr, []⟩).1
      = Outcome.resolved ⟨T2, name, loc⟩
    ∧ (promptForPublishParameters env
        ⟨Except.ok cfg, Reply.answer T2 :: Reply.answer loc :: Reply.answer name :: rest,
          tr, []⟩).2.trace
      = tr ++ [Event.rlCreate, Event.loadConfig,
          Event.question (tenantQuery (cfg.get "tenantId")),
          Event.loadConfig, Event.question "Location (found by running `nerd regions`): ",
          Event.saveConfig (cfg.assign "tenantId" T2)]
        ++ unhandled (env.saveConfig (cfg.assign "tenantId" T2))
        ++ [Event.question "Web app name: ", Event.rlClose]
    ∧ (cfg.assign "tenantId" T2).get "tenantId" = some T2
    ∧ (∀ k, k ≠ "tenantId" → (cfg.assign "tenantId" T2).get k = cfg.get k)
    ∧ (env.saveConfig (cfg.assign "tenantId" T2) = none →
        (promptForPublishParameters env
          ⟨Except.ok cfg, Reply.answer T2 :: Reply.answer loc :: Reply.answer name :: rest,
            tr, []⟩).2.config
        = Except.ok (cfg.assign "tenantId" T2)) := by
  refine ⟨?_, ?_, Config.get_assign_same cfg _ _,
    fun k hk => Config.get_assign_other cfg _ _ k hk, ?_⟩
  · cases hs : env.saveConfig (cfg.assign "tenantId" T2) <;>
      simp [promptForPublishParameters, promptForTenantId, getTenantIdFromConfig, askTenantId,
        cacheTenantId, assignTenantId, settleFloating, finishSave, unhandled,
        saveConfig, loadConfig, question, rlCreate, rlClose, emit, truthy,
        Promise.andThen, Promise.orCatch, Promise.resolve,
        Promise.detached, hne, hs]
  · cases hs : env.saveConfig (cfg.assign "tenantId" T2) <;>
      simp [promptForPublishParameters, promptForTenantId, getTenantIdFromConfig, askTenantId,
        cacheTenantId, assignTenantId, settleFloating, finishSave, unhandled,
        saveConfig, loadConfig, question, rlCreate, rlClose, emit, truthy,
        Promise.andThen, Promise.orCatch, Promise.resolve,
        Promise.detached, hne, hs]
  · intro hs
    simp [promptForPublishParameters, promptForTenantId, getTenantIdFromConfig, askTenantId,
      cacheTenantId, assignTenantId, settleFloating, finishSave, unhandled,
      saveConfig, loadConfig, question, rlCreate, rlClose, emit, truthy,
      Promise.andThen, Promise.orCatch, Promise.resolve,
      Promise.detached, hne, hs]

/-- An instance of the preceding theorem: at the configuration
with `tenantId` `T1` and the answers `T2`, `westus`, `myapp`. -/
theorem promptForPublishParameters_entered_tenant_witness :
    "T2" ≠ "" ∧
    (promptForPublishParameters okEnv
        ⟨Except.ok [("tenantId", "T1")],
          [Reply.answer "T2", Reply.answer "westus", Reply.answer "myapp"], [], []⟩).1
      = Outcome.resolved ⟨"T2", "myapp", "westus"⟩ ∧
    Config.assign [("tenantId", "T1")] "tenantId" "T2" = [("tenantId", "T2")] ∧
    (promptForPublishParameters okEnv
        ⟨Except.ok [("tenantId", "T1")],
          [Reply.answer "T2", Reply.answer "westus", Reply.answer "myapp"], [], []⟩).2.config
      = Except.ok [("tenantId", "T2")] :=
  ⟨by decide,
    (promptForPublishParameters_entered_tenant okEnv [("tenantId", "T1")] "T2" "westus"
      "myapp" [] [] (by decide)).1,
    by decide,
    (promptForPublishParameters_entered_tenant okEnv [("tenantId", "T1")] "T2" "westus"
      "myapp" [] [] (by decide)).2.2.2.2 rfl⟩

/-- C3: when no tenant id is cached (loading the configuration fails, or it has no
`tenantId`, or its `tenantId` is empty) and the answer at the tenant prompt is
empty, `promptForPublishParameters` resolves with the empty tenant id, `saveConfig`
is not called and the stored configuration is untouched. -/
theorem promptForPublishParameters_no_tenant (env : Env) (c : Except JsError Config)
    (loc name : String) (rest : List Reply) (tr : List Event)
    (hnone : (∃ e, c = Except.error e)
      ∨ (∃ cfg, c = Except.ok cfg ∧ cfg.get "tenantId" = none)
      ∨ (∃ cfg, c = Except.ok cfg ∧ cfg.get "tenantId" = some "")) :
    promptForPublishParameters env
        ⟨c, Reply.answer "" :: Reply.answer loc :: Reply.answer name :: rest, tr, []⟩
      = (Outcome.resolved ⟨"", name, loc⟩,
          ⟨c, rest,
            tr ++ [Event.rlCreate, Event.loadConfig,
              Event.question "(optional) Tenant ID [default: none]: ",
              Event.question "Location (found by running `nerd regions`): ",
              Event.question "Web app name: ", Event.rlClose], []⟩) := by
  rcases hnone with ⟨e, rfl⟩ | ⟨cfg, rfl, hget⟩ | ⟨cfg, rfl, hget⟩ <;>
    simp [promptForPublishParameters, promptForTenantId, getTenantIdFromConfig, askTenantId,
      cacheTenantId, settleFloating, loadConfig, question, rlCreate, rlClose, emit,
      tenantQuery, truthy, Promise.andThen, Promise.orCatch, Promise.resolve, *]

/-- An instance of the preceding theorem: at the empty configuration
and the answers (empty), `westus`, `myapp`: no call to `saveConfig` in the trace. -/
theorem promptForPublishParameters_no_tenant_witness :
    ((∃ e, (Except.ok [] : Except JsError Config) = Except.error e)
      ∨ (∃ cfg, (Except.ok [] : Except JsError Config) = Except.ok cfg
          ∧ cfg.get "tenantId" = none)
      ∨ (∃ cfg, (Except.ok [] : Except JsError Config) = Except.ok cfg
          ∧ cfg.get "tenantId" = some "")) ∧
    promptForPublishParameters okEnv
        ⟨Except.ok [], [Reply.answer "", Reply.answer "westus", Reply.answer "myapp"], [], []⟩
      = (Outcome.resolved ⟨"", "myapp", "westus"⟩,
          ⟨Except.ok [], [],
            [] ++ [Event.rlCreate, Event.loadConfig,
              Event.question "(optional) Tenant ID [default: none]: ",
              Event.question "Location (found by running `nerd regions`): ",
              Event.question "Web app name: ", Event.rlClose], []⟩) :=
  ⟨Or.inr (Or.inl ⟨[], rfl, rfl⟩),
    promptForPublishParameters_no_tenant okEnv (Except.ok []) "westus" "myapp" [] []
      (Or.inr (Or.inl ⟨[], rfl, rfl⟩))⟩

/-! ## The git remotes (lines 61-77) -/

/-- C4: when both git commands succeed, `fixGitRemotes n` makes exactly two shell
calls, `git remote remove origin` and then `git remote add azure
https://n.scm.azurewebsites.net:443/n.git`, and resolves. -/
theorem fixGitRemotes_remove_then_add (env : Env) (n : String) (w : World)
    (hremove : env.exec "git remote remove origin" = none)
    (hadd : env.exec ("git remote add azure https://" ++ n
      ++ ".scm.azurewebsites.net:443/" ++ n ++ ".git") = none) :
    fixGitRemotes env n w
      = (Outcome.resolved (),
          { w with trace := w.trace ++
            [Event.exec "git remote remove origin",
              Event.exec ("git remote add azure https://" ++ n
                ++ ".scm.azurewebsites.net:443/" ++ n ++ ".git")] }) := by
  simp [fixGitRemotes, hremove, hadd]

/-- An instance of the preceding theorem: at the application name `myapp`. -/
theorem fixGitRemotes_remove_then_add_witness :
    okEnv.exec "git remote remove origin" = none ∧
    okEnv.exec "git remote add azure https://myapp.scm.azurewebsites.net:443/myapp.git" = none ∧
    (fixGitRemotes okEnv "myapp" (startWorld (Except.ok []) [])).1 = Outcome.resolved () ∧
    (fixGitRemotes okEnv "myapp" (startWorld (Except.ok []) [])).2.trace
      = [Event.exec "git remote remove origin",
          Event.exec "git remote add azure https://myapp.scm.azurewebsites.net:443/myapp.git"] :=
  ⟨rfl, rfl,
    congrArg Prod.fst
      (fixGitRemotes_remove_then_add okEnv "myapp" (startWorld (Except.ok []) []) rfl rfl),
    (congrArg (fun r => r.2.trace)
      (fixGitRemotes_remove_then_add okEnv "myapp" (startWorld (Except.ok []) []) rfl rfl)).trans
      (by decide)⟩

/-- C10: when `git remote remove origin` fails with `e`, `fixGitRemotes n` rejects
with `e` and the only shell call made is that one: `git remote add` is never run. -/
theorem fixGitRemotes_remove_fails (env : Env) (n : String) (w : World) (e : JsError)
    (hremove : env.exec "git remote remove origin" = some e) :
    fixGitRemotes env n w
      = (Outcome.rejected e,
          { w with trace := w.trace ++ [Event.exec "git remote remove origin"] }) := by
  simp [fixGitRemotes, hremove]

/-- An instance of the preceding theorem: in a repository without an `origin`
remote. -/
theorem fixGitRemotes_remove_fails_witness :
    noOriginEnv.exec "git remote remove origin" = some ⟨"error: No such remote: origin"⟩ ∧
    fixGitRemotes noOriginEnv "myapp" (startWorld (Except.ok []) [])
      = (Outcome.rejected ⟨"error: No such remote: origin"⟩,
          { startWorld (Except.ok []) [] with
            trace := (startWorld (Except.ok []) []).trace
              ++ [Event.exec "git remote remove origin"] }) :=
  ⟨by decide,
    fixGitRemotes_remove_fails noOriginEnv "myapp" (startWorld (Except.ok []) [])
      ⟨"error: No such remote: origin"⟩ (by decide)⟩

/-! ## The save that is not awaited (lines 171-175, 34-38) -/

/-- A save that is started and not awaited, once it has run to its end, has made
the calls of lines 34-38 and left the store as they leave it; a rejection of
lines 34-38 is what is reported as unhandled. -/
theorem detached_settled (env : Env) (tenantId : String) (c : Except JsError Config)
    (rs : List Reply) (tr : List Event) :
    settleFloating env (Promise.detached (assignTenantId tenantId) ⟨c, rs, tr, []⟩).2
      = (match saveTenantIdToConfig env tenantId ⟨c, rs, tr, []⟩ with
        | (Outcome.rejected e, w1) =>
          { w1 with trace := w1.trace ++ [Event.unhandledRejection e] }
        | (_, w1) => w1) := by
  cases c with
  | error e =>
    simp [settleFloating, finishSave, Promise.detached, assignTenantId, saveTenantIdToConfig,
      loadConfig, Promise.andThen, Promise.resolve]
  | ok cfg =>
    cases hs : env.saveConfig (cfg.assign "tenantId" tenantId) <;>
      simp [settleFloating, finishSave, Promise.detached, assignTenantId,
        saveTenantIdToConfig, saveConfig, loadConfig, Promise.andThen, Promise.resolve, hs]

/-! ## `publish` (lines 9-26) -/

/-- C5: when the prompt and the login resolve and the creation of the resource
group rejects with `e`, `publish` goes straight to its `.catch`: it logs the error
and resolves, and no web-app creation, site-config update, shell command or help
line was added to the trace. -/
theorem publish_stops_after_resource_group_failure (env : Env) (w w1 w2 w3 : World)
    (o : PublishOptions) (a : AuthContext) (e : JsError)
    (hp : promptForPublishParameters env w = (Outcome.resolved o, w1))
    (ha : auth env o.tenantId w1 = (Outcome.resolved a, w2))
    (hr : createResourceGroup env a o w2 = (Outcome.rejected e, w3)) :
    publish env w
      = (Outcome.resolved (),
          { w3 with trace := w3.trace
            ++ [Event.consoleLog ("Azure publishing error: " ++ e.message)] })
    ∧ (publish env w).2.trace.filter Event.isAfterResourceGroup
      = w.trace.filter Event.isAfterResourceGroup := by
  have hpub : publish env w
      = (Outcome.resolved (),
          { w3 with trace := w3.trace
            ++ [Event.consoleLog ("Azure publishing error: " ++ e.message)] }) := by
    simp [publish, publishSteps, Promise.andThen, Promise.orCatch, consoleLog, emit, hp, ha, hr]
  have q1 := (quiet_promptForPublishParameters (f := Event.isAfterResourceGroup) env rfl
    (fun _ => rfl) rfl (fun _ => rfl) rfl (fun _ => rfl)).of_eq hp
  have q2 := (quiet_auth (f := Event.isAfterResourceGroup) env o.tenantId rfl).of_eq ha
  have q3 := (quiet_createResourceGroup (f := Event.isAfterResourceGroup) env a o
    (fun _ _ _ _ => rfl)).of_eq hr
  refine ⟨hpub, ?_⟩
  rw [hpub]
  simp [List.filter_append, Event.isAfterResourceGroup, q1, q2, q3]

/-- An instance of the preceding theorem: where the creation of
the resource group `myapp123` fails. -/
theorem publish_stops_after_resource_group_failure_witness :
    publish rgFailEnv (startWorld (Except.ok []) ["contoso", "westus", "myapp123"])
      = (Outcome.resolved (),
          { ( ⟨Except.ok [("tenantId", "contoso")], [],
                [Event.rlCreate, Event.loadConfig,
                  Event.question "(optional) Tenant ID [default: none]: ",
                  Event.loadConfig, Event.question "Location (found by running `nerd regions`): ",
                  Event.saveConfig [("tenantId", "contoso")],
                  Event.question "Web app name: ", Event.rlClose,
                  Event.interactiveLogin "contoso",
                  Event.rgCreateOrUpdate ⟨"token"⟩ "sub-1" "myapp123" "westus"], []⟩ : World) with
            trace := [Event.rlCreate, Event.loadConfig,
                Event.question "(optional) Tenant ID [default: none]: ",
                Event.loadConfig, Event.question "Location (found by running `nerd regions`): ",
                Event.saveConfig [("tenantId", "contoso")],
                Event.question "Web app name: ", Event.rlClose,
                Event.interactiveLogin "contoso",
                Event.rgCreateOrUpdate ⟨"token"⟩ "sub-1" "myapp123" "westus"]
              ++ [Event.consoleLog
                ("Azure publishing error: " ++ (⟨"quota exceeded"⟩ : JsError).message)] })
    ∧ (publish rgFailEnv
        (startWorld (Except.ok []) ["contoso", "westus", "myapp123"])).2.trace.filter
        Event.isAfterResourceGroup
      = (startWorld (Except.ok []) ["contoso", "westus", "myapp123"]).trace.filter
        Event.isAfterResourceGroup :=
  (publish_stops_after_resource_group_failure rgFailEnv
    (startWorld (Except.ok []) ["contoso", "westus", "myapp123"])
    ⟨Except.ok [("tenantId", "contoso")], [],
      [Event.rlCreate, Event.loadConfig,
        Event.question "(optional) Tenant ID [default: none]: ",
        Event.loadConfig, Event.question "Location (found by running `nerd regions`): ",
        Event.saveConfig [("tenantId", "contoso")],
        Event.question "Web app name: ", Event.rlClose], []⟩
    ⟨Except.ok [("tenantId", "contoso")], [],
      [Event.rlCreate, Event.loadConfig,
        Event.question "(optional) Tenant ID [default: none]: ",
        Event.loadConfig, Event.question "Location (found by running `nerd regions`): ",
        Event.saveConfig [("tenantId", "contoso")],
        Event.question "Web app name: ", Event.rlClose,
        Event.interactiveLogin "contoso"], []⟩
    ⟨Except.ok [("tenantId", "contoso")], [],
      [Event.rlCreate, Event.loadConfig,
        Event.question "(optional) Tenant ID [default: none]: ",
        Event.loadConfig, Event.question "Location (found by running `nerd regions`): ",
        Event.saveConfig [("tenantId", "contoso")],
        Event.question "Web app name: ", Event.rlClose,
        Event.interactiveLogin "contoso",
        Event.rgCreateOrUpdate ⟨"token"⟩ "sub-1" "myapp123" "westus"], []⟩
    ⟨"contoso", "myapp123", "westus"⟩ ⟨⟨"token"⟩, some [⟨"sub-1"⟩]⟩ ⟨"quota exceeded"⟩
    (by decide) (by decide) (by decide))

/-- C6, as the code has it: whichever step of `publish` rejects with `e` (the
promise of the prompt, the login, the resource group, the web app, the site
configuration or the git remotes), `publish` resolves, and the lines printed during
the run are exactly one: `Azure publishing error: ` followed by the message of `e`.
An error of the save that the prompt starts and does not await rejects no step. -/
theorem publish_logs_and_swallows (env : Env) (w : World) (s : Step) (e : JsError)
    (h : raisesAt env w e s) :
    (publish env w).1 = Outcome.resolved ()
    ∧ (publish env w).2.trace.filter Event.isOutput
      = w.trace.filter Event.isOutput
        ++ [Event.consoleLog ("Azure publishing error: " ++ e.message)] := by
  have qp := quiet_promptForPublishParameters (f := Event.isOutput) env rfl
    (fun _ => rfl) rfl (fun _ => rfl) rfl (fun _ => rfl)
  cases s with
  | prompting =>
    obtain ⟨w1, h1⟩ := h
    have hpub : publish env w = (Outcome.resolved (),
        { w1 with trace := w1.trace
          ++ [Event.consoleLog ("Azure publishing error: " ++ e.message)] }) := by
      simp [publish, publishSteps, Promise.andThen, Promise.orCatch, consoleLog, emit, h1]
    rw [hpub]
    simp [List.filter_append, Event.isOutput, qp.of_eq h1]
  | auth =>
    obtain ⟨o, w1, w2, h1, h2⟩ := h
    have hpub : publish env w = (Outcome.resolved (),
        { w2 with trace := w2.trace
          ++ [Event.consoleLog ("Azure publishing error: " ++ e.message)] }) := by
      simp [publish, publishSteps, Promise.andThen, Promise.orCatch, consoleLog, emit, h1, h2]
    rw [hpub]
    simp [List.filter_append, Event.isOutput, qp.of_eq h1,
      (quiet_auth (f := Event.isOutput) env o.tenantId rfl).of_eq h2]
  | createResourceGroup =>
    obtain ⟨o, w1, a, w2, w3, h1, h2, h3⟩ := h
    have hpub : publish env w = (Outcome.resolved (),
        { w3 with trace := w3.trace
          ++ [Event.consoleLog ("Azure publishing error: " ++ e.message)] }) := by
      simp [publish, publishSteps, Promise.andThen, Promise.orCatch, consoleLog, emit, h1, h2,
        h3]
    rw [hpub]
    simp [List.filter_append, Event.isOutput, qp.of_eq h1,
      (quiet_auth (f := Event.isOutput) env o.tenantId rfl).of_eq h2,
      (quiet_createResourceGroup (f := Event.isOutput) env a o (fun _ _ _ _ => rfl)).of_eq h3]
  | createWebApp =>
    obtain ⟨o, w1, a, w2, r3, w3, w4, h1, h2, h3, h4⟩ := h
    have hpub : publish env w = (Outcome.resolved (),
        { w4 with trace := w4.trace
          ++ [Event.consoleLog ("Azure publishing error: " ++ e.message)] }) := by
      simp [publish, publishSteps, Promise.andThen, Promise.orCatch, consoleLog, emit, h1, h2,
        h3, h4]
    rw [hpub]
    simp [List.filter_append, Event.isOutput, qp.of_eq h1,
      (quiet_auth (f := Event.isOutput) env o.tenantId rfl).of_eq h2,
      (quiet_createResourceGroup (f := Event.isOutput) env a o (fun _ _ _ _ => rfl)).of_eq h3,
      (quiet_createWebApp (f := Event.isOutput) env a o (fun _ _ _ _ _ _ => rfl)).of_eq h4]
  | enableGitPushDeploy =>
    obtain ⟨o, w1, a, w2, r3, w3, r4, w4, w5, h1, h2, h3, h4, h5⟩ := h
    have hpub : publish env w = (Outcome.resolved (),
        { w5 with trace := w5.trace
          ++ [Event.consoleLog ("Azure publishing error: " ++ e.message)] }) := by
      simp [publish, publishSteps, Promise.andThen, Promise.orCatch, consoleLog, emit, h1, h2,
        h3, h4, h5]
    rw [hpub]
    simp [List.filter_append, Event.isOutput, qp.of_eq h1,
      (quiet_auth (f := Event.isOutput) env o.tenantId rfl).of_eq h2,
      (quiet_createResourceGroup (f := Event.isOutput) env a o (fun _ _ _ _ => rfl)).of_eq h3,
      (quiet_createWebApp (f := Event.isOutput) env a o (fun _ _ _ _ _ _ => rfl)).of_eq h4,
      (quiet_enableGitPushDeploy (f := Event.isOutput) env a o
        (fun _ _ _ _ _ _ _ => rfl)).of_eq h5]
  | fixGitRemotes =>
    obtain ⟨o, w1, a, w2, r3, w3, r4, w4, r5, w5, w6, h1, h2, h3, h4, h5, h6⟩ := h
    have hpub : publish env w = (Outcome.resolved (),
        { w6 with trace := w6.trace
          ++ [Event.consoleLog ("Azure publishing error: " ++ e.message)] }) := by
      simp [publish, publishSteps, Promise.andThen, Promise.orCatch, consoleLog, emit, h1, h2,
        h3, h4, h5, h6]
    rw [hpub]
    simp [List.filter_append, Event.isOutput, qp.of_eq h1,
      (quiet_auth (f := Event.isOutput) env o.tenantId rfl).of_eq h2,
      (quiet_createResourceGroup (f := Event.isOutput) env a o (fun _ _ _ _ => rfl)).of_eq h3,
      (quiet_createWebApp (f := Event.isOutput) env a o (fun _ _ _ _ _ _ => rfl)).of_eq h4,
      (quiet_enableGitPushDeploy (f := Event.isOutput) env a o
        (fun _ _ _ _ _ _ _ => rfl)).of_eq h5,
      (quiet_fixGitRemotes (f := Event.isOutput) env o.name (fun _ => rfl)).of_eq h6]

/-- An instance of the preceding theorem: where `git remote remove origin` fails:
the one line printed is `Azure publishing error: error: No such remote: origin`. -/
theorem publish_logs_and_swallows_witness :
    (publish noOriginEnv (startWorld (Except.ok []) ["", "westus", "myapp123"])).1
      = Outcome.resolved ()
    ∧ (publish noOriginEnv
        (startWorld (Except.ok []) ["", "westus", "myapp123"])).2.trace.filter Event.isOutput
      = (startWorld (Except.ok []) ["", "westus", "myapp123"]).trace.filter Event.isOutput
        ++ [Event.consoleLog ("Azure publishing error: "
          ++ (⟨"error: No such remote: origin"⟩ : JsError).message)] :=
  publish_logs_and_swallows noOriginEnv (startWorld (Except.ok []) ["", "westus", "myapp123"])
    Step.fixGitRemotes ⟨"error: No such remote: origin"⟩
    ⟨⟨"", "myapp123", "westus"⟩,
      ⟨Except.ok [], [],
        [Event.rlCreate, Event.loadConfig,
          Event.question "(optional) Tenant ID [default: none]: ",
          Event.question "Location (found by running `nerd regions`): ",
          Event.question "Web app name: ", Event.rlClose], []⟩,
      ⟨⟨"token"⟩, some [⟨"sub-1"⟩]⟩,
      ⟨Except.ok [], [],
        [Event.rlCreate, Event.loadConfig,
          Event.question "(optional) Tenant ID [default: none]: ",
          Event.question "Location (found by running `nerd regions`): ",
          Event.question "Web app name: ", Event.rlClose, Event.interactiveLogin ""], []⟩,
      "group",
      ⟨Except.ok [], [],
        [Event.rlCreate, Event.loadConfig,
          Event.question "(optional) Tenant ID [default: none]: ",
          Event.question "Location (found by running `nerd regions`): ",
          Event.question "Web app name: ", Event.rlClose, Event.interactiveLogin "",
          Event.rgCreateOrUpdate ⟨"token"⟩ "sub-1" "myapp123" "westus"], []⟩,
      "site",
      ⟨Except.ok [], [],
        [Event.rlCreate, Event.loadConfig,
          Event.question "(optional) Tenant ID [default: none]: ",
          Event.question "Location (found by running `nerd regions`): ",
          Event.question "Web app name: ", Event.rlClose, Event.interactiveLogin "",
          Event.rgCreateOrUpdate ⟨"token"⟩ "sub-1" "myapp123" "westus",
          Event.createOrUpdateSite ⟨"token"⟩ "sub-1" "myapp123" "myapp123" "myapp123"
            "westus"], []⟩,
      "config",
      ⟨Except.ok [], [],
        [Event.rlCreate, Event.loadConfig,
          Event.question "(optional) Tenant ID [default: none]: ",
          Event.question "Location (found by running `nerd regions`): ",
          Event.question "Web app name: ", Event.rlClose, Event.interactiveLogin "",
          Event.rgCreateOrUpdate ⟨"token"⟩ "sub-1" "myapp123" "westus",
          Event.createOrUpdateSite ⟨"token"⟩ "sub-1" "myapp123" "myapp123" "myapp123"
            "westus",
          Event.updateSiteConfig ⟨"token"⟩ "sub-1" "myapp123" "myapp123" "LocalGit" "westus"
            true], []⟩,
      ⟨Except.ok [], [],
        [Event.rlCreate, Event.loadConfig,
          Event.question "(optional) Tenant ID [default: none]: ",
          Event.question "Location (found by running `nerd regions`): ",
          Event.question "Web app name: ", Event.rlClose, Event.interactiveLogin "",
          Event.rgCreateOrUpdate ⟨"token"⟩ "sub-1" "myapp123" "westus",
          Event.createOrUpdateSite ⟨"token"⟩ "sub-1" "myapp123" "myapp123" "myapp123"
            "westus",
          Event.updateSiteConfig ⟨"token"⟩ "sub-1" "myapp123" "myapp123" "LocalGit" "westus"
            true,
          Event.exec "git remote remove origin"], []⟩,
      by decide, by decide, by decide, by decide, by decide, by decide⟩

/-- C6, as the claim states it, fails at the prompting step: when the save of the
tenant id, which `promptForPublishParameters` starts and does not await (lines
171-175), fails with `disk full`, that error is raised while the prompt runs and
reaches no `.catch`; `publish` goes on, and it prints no line `Azure publishing
error: disk full`. -/
theorem publish_save_error_not_logged :
    (promptForPublishParameters saveFailEnv
        (startWorld (Except.ok []) ["T2", "westus", "myapp123"])).2.trace.filter
          Event.isUnhandled
      = [Event.unhandledRejection ⟨"disk full"⟩]
    ∧ ¬ ((publish saveFailEnv
          (startWorld (Except.ok []) ["T2", "westus", "myapp123"])).2.trace.filter
            Event.isOutput
        = [Event.consoleLog "Azure publishing error: disk full"])
    ∧ Event.consoleLog "Azure publishing error: disk full"
        ∉ (publish saveFailEnv
            (startWorld (Except.ok []) ["T2", "westus", "myapp123"])).2.trace := by
  decide

/-- C9: when the prompt resolves with `o`, the login yields credentials and a
list of subscriptions starting with `s0`, and every later call succeeds, `publish`
resolves after exactly these calls, in this order: the login; the resource group
`o.name` at `o.location`; the web app `o.name` in resource group `o.name`, with site
name `o.name`, at `o.location`; the site configuration of site `o.name` in resource
group `o.name` with `scmType` `LocalGit` and remote debugging enabled; `git remote
remove origin`; `git remote add azure` for `o.name`; the six lines of the help
message. The three SDK calls carry the id of `s0`. -/
theorem publish_calls_in_order (env : Env) (w w1 : World) (o : PublishOptions)
    (creds : Credentials) (s0 : Subscription) (more : List Subscription)
    (r1 r2 r3 : String)
    (hp : promptForPublishParameters env w = (Outcome.resolved o, w1))
    (hlogin : env.interactiveLogin o.tenantId = ⟨none, creds, some (s0 :: more)⟩)
    (hgroup : env.rgCreateOrUpdate creds s0.id o.name o.location = Except.ok r1)
    (hsite : env.createOrUpdateSite creds s0.id o.name o.name o.name o.location
      = Except.ok r2)
    (hconfig : env.updateSiteConfig creds s0.id o.name o.name "LocalGit" o.location true
      = Except.ok r3)
    (hremove : env.exec "git remote remove origin" = none)
    (hadd : env.exec ("git remote add azure https://" ++ o.name
      ++ ".scm.azurewebsites.net:443/" ++ o.name ++ ".git") = none) :
    publish env w
      = (Outcome.resolved (),
          { w1 with trace := w1.trace ++
            [Event.interactiveLogin o.tenantId,
              Event.rgCreateOrUpdate creds s0.id o.name o.location,
              Event.createOrUpdateSite creds s0.id o.name o.name o.name o.location,
              Event.updateSiteConfig creds s0.id o.name o.name "LocalGit" o.location true,
              Event.exec "git remote remove origin",
              Event.exec ("git remote add azure https://" ++ o.name
                ++ ".scm.azurewebsites.net:443/" ++ o.name ++ ".git"),
              Event.displayAction "First time with local git deployment to Azure App Service?",
              Event.displayAction " 1. In your browser, navigate to https://portal.azure.com",
              Event.displayAction " 2. Find your web app resource group and navigate to it",
              Event.displayAction " 3. Click on the App Service in your resource group",
              Event.displayAction " 4. Navigate to the `Deployment credentials` section",
              Event.displayAction " 5. Add/change your git deployment credentials and save"] })
    ∧ (publish env w).2.trace.filter Event.isProvisioning
      = w.trace.filter Event.isProvisioning ++
          [Event.rgCreateOrUpdate creds s0.id o.name o.location,
            Event.createOrUpdateSite creds s0.id o.name o.name o.name o.location,
            Event.updateSiteConfig creds s0.id o.name o.name "LocalGit" o.location true,
            Event.exec "git remote remove origin",
            Event.exec ("git remote add azure https://" ++ o.name
              ++ ".scm.azurewebsites.net:443/" ++ o.name ++ ".git"),
            Event.displayAction "First time with local git deployment to Azure App Service?",
            Event.displayAction " 1. In your browser, navigate to https://portal.azure.com",
            Event.displayAction " 2. Find your web app resource group and navigate to it",
            Event.displayAction " 3. Click on the App Service in your resource group",
            Event.displayAction " 4. Navigate to the `Deployment credentials` section",
            Event.displayAction " 5. Add/change your git deployment credentials and save"] := by
  have q1 := (quiet_promptForPublishParameters (f := Event.isProvisioning) env rfl
    (fun _ => rfl) rfl (fun _ => rfl) rfl (fun _ => rfl)).of_eq hp
  have hpub : publish env w
      = (Outcome.resolved (),
          { w1 with trace := w1.trace ++
            [Event.interactiveLogin o.tenantId,
              Event.rgCreateOrUpdate creds s0.id o.name o.location,
              Event.createOrUpdateSite creds s0.id o.name o.name o.name o.location,
              Event.updateSiteConfig creds s0.id o.name o.name "LocalGit" o.location true,
              Event.exec "git remote remove origin",
              Event.exec ("git remote add azure https://" ++ o.name
                ++ ".scm.azurewebsites.net:443/" ++ o.name ++ ".git"),
              Event.displayAction "First time with local git deployment to Azure App Service?",
              Event.displayAction " 1. In your browser, navigate to https://portal.azure.com",
              Event.displayAction " 2. Find your web app resource group and navigate to it",
              Event.displayAction " 3. Click on the App Service in your resource group",
              Event.displayAction " 4. Navigate to the `Deployment credentials` section",
              Event.displayAction
                " 5. Add/change your git deployment credentials and save"] }) := by
    simp [publish, publishSteps, Promise.andThen, Promise.orCatch, auth, createResourceGroup,
      createWebApp, enableGitPushDeploy, fixGitRemotes, displayGitCredentialsMessage,
      displayAction, firstSubscriptionId, callback, emit, hp, hlogin, hgroup, hsite, hconfig,
      hremove, hadd]
  refine ⟨hpub, ?_⟩
  rw [hpub]
  simp [List.filter_append, List.filter_cons, Event.isProvisioning, q1]

/-- An instance of the preceding theorem: for the application `myapp123` in `westus`
with the one subscription `sub-1`. -/
theorem publish_calls_in_order_witness :
    (publish okEnv (startWorld (Except.ok []) ["contoso", "westus", "myapp123"])).1
      = Outcome.resolved ()
    ∧ (publish okEnv
        (startWorld (Except.ok []) ["contoso", "westus", "myapp123"])).2.trace.filter
          Event.isProvisioning
      = [Event.rgCreateOrUpdate ⟨"token"⟩ "sub-1" "myapp123" "westus",
          Event.createOrUpdateSite ⟨"token"⟩ "sub-1" "myapp123" "myapp123" "myapp123" "westus",
          Event.updateSiteConfig ⟨"token"⟩ "sub-1" "myapp123" "myapp123" "LocalGit" "westus"
            true,
          Event.exec "git remote remove origin",
          Event.exec "git remote add azure https://myapp123.scm.azurewebsites.net:443/myapp123.git",
          Event.displayAction "First time with local git deployment to Azure App Service?",
          Event.displayAction " 1. In your browser, navigate to https://portal.azure.com",
          Event.displayAction " 2. Find your web app resource group and navigate to it",
          Event.displayAction " 3. Click on the App Service in your resource group",
          Event.displayAction " 4. Navigate to the `Deployment credentials` section",
          Event.displayAction " 5. Add/change your git deployment credentials and save"] :=
  have h := publish_calls_in_order okEnv
    (startWorld (Except.ok []) ["contoso", "westus", "myapp123"])
    ⟨Except.ok [("tenantId", "contoso")], [],
      [Event.rlCreate, Event.loadConfig,
        Event.question "(optional) Tenant ID [default: none]: ",
        Event.loadConfig, Event.question "Location (found by running `nerd regions`): ",
        Event.saveConfig [("tenantId", "contoso")],
        Event.question "Web app name: ", Event.rlClose], []⟩
    ⟨"contoso", "myapp123", "westus"⟩ ⟨"token"⟩ ⟨"sub-1"⟩ [] "group" "site" "config"
    (by decide) rfl rfl rfl rfl rfl rfl
  ⟨congrArg Prod.fst h.1, h.2.trans (by decide)⟩

/-! ## `listRegions` (lines 190-247) -/

/-- Once the tenant prompt is answered, the tenant flow resolves. -/
theorem promptForTenantId_answered (env : Env) (c : Except JsError Config) (t : String)
    (rest : List Reply) (tr : List Event) :
    ∃ d w1, promptForTenantId env ⟨c, Reply.answer t :: rest, tr, []⟩
      = (Outcome.resolved d, w1) := by
  cases c with
  | error e =>
    by_cases ht : t = ""
    · simp [promptForTenantId, getTenantIdFromConfig, askTenantId, cacheTenantId,
        assignTenantId, settleFloating, loadConfig, question, Promise.andThen,
        Promise.orCatch, Promise.resolve, Promise.detached, ht, truthy]
    · simp [promptForTenantId, getTenantIdFromConfig, askTenantId, cacheTenantId,
        assignTenantId, settleFloating, loadConfig, question, Promise.andThen,
        Promise.orCatch, Promise.resolve, Promise.detached, ht, truthy]
  | ok cfg =>
    by_cases ht : t = ""
    · cases hget : cfg.get "tenantId" with
      | none =>
        simp [promptForTenantId, getTenantIdFromConfig, askTenantId, cacheTenantId,
          assignTenantId, settleFloating, loadConfig, question, Promise.andThen,
          Promise.orCatch, Promise.resolve, Promise.detached, ht, hget, truthy]
      | some v =>
        by_cases hv : v = ""
        · simp [promptForTenantId, getTenantIdFromConfig, askTenantId, cacheTenantId,
            assignTenantId, settleFloating, loadConfig, question, Promise.andThen,
            Promise.orCatch, Promise.resolve, Promise.detached, ht, hget, hv, truthy]
        · simp [promptForTenantId, getTenantIdFromConfig, askTenantId, cacheTenantId,
            assignTenantId, settleFloating, loadConfig, question, Promise.andThen,
            Promise.orCatch, Promise.resolve, Promise.detached, ht, hget, hv, truthy]
    · simp [promptForTenantId, getTenantIdFromConfig, askTenantId, cacheTenantId,
        assignTenantId, settleFloating, loadConfig, question, Promise.andThen,
        Promise.orCatch, Promise.resolve, Promise.detached, ht, truthy]

/-- Lines 225-246 close the prompt handle exactly once and settle. -/
theorem loginAndList_closes_once (env : Env) (d : String) (w : World) :
    (loginAndList env d w).1 ≠ Outcome.pending
    ∧ (loginAndList env d w).2.trace.filter Event.isClose
      = w.trace.filter Event.isClose ++ [Event.rlClose] := by
  have hset := settleFloating_filter (f := Event.isClose) env
    { w with trace := w.trace ++ [Event.interactiveLogin d] } (fun _ => rfl) (fun _ => rfl)
  simp only [List.filter_append] at hset
  unfold loginAndList
  dsimp only
  generalize settleFloating env
    { w with trace := w.trace ++ [Event.interactiveLogin d] } = w1 at hset ⊢
  simp [Event.isClose] at hset
  rcases hs : (env.interactiveLogin d).subscriptions with _ | _ | ⟨s, more⟩
  · simp [List.filter_append, Event.isClose, hset]
  · simp [List.filter_append, Event.isClose, hset]
  · cases hl : env.listLocations (env.interactiveLogin d).credentials s.id with
    | error err => simp [hl, List.filter_append, Event.isClose, hset]
    | ok result =>
      have hres := printRegions_resolved result
        { w1 with trace := w1.trace
          ++ [Event.listLocations (env.interactiveLogin d).credentials s.id] }
      have hq := quiet_printRegions (f := Event.isClose) (fun _ => rfl) result
        { w1 with trace := w1.trace
          ++ [Event.listLocations (env.interactiveLogin d).credentials s.id] }
      rcases hpr : printRegions result
        { w1 with trace := w1.trace
          ++ [Event.listLocations (env.interactiveLogin d).credentials s.id] } with ⟨o, w3⟩
      rw [hpr] at hres hq
      simp only at hres
      subst hres
      simp [List.filter_append, Event.isClose] at hq
      simp [hl, hpr, Promise.andThen, rlClose, emit, List.filter_append, Event.isClose, hq,
        hset]

/-- C7: when the tenant flow resolves with `d` and the login for `d` yields no
list of subscriptions or an empty one (with or without a login error),
`listRegions` rejects with the message `Unable to retrieve subscriptions`; after
the login, and the end of a save of the tenant id that was under way, the only
call is `rl.close`, once: `listLocations` is not called and no line is printed. -/
theorem listRegions_no_subscriptions (env : Env) (c : Except JsError Config)
    (rs : List Reply) (tr : List Event) (d : String) (w1 : World)
    (hflow : promptForTenantId env ⟨c, rs, tr ++ [Event.rlCreate], []⟩
      = (Outcome.resolved d, w1))
    (hsubs : (env.interactiveLogin d).subscriptions = none
      ∨ (env.interactiveLogin d).subscriptions = some []) :
    listRegions env ⟨c, rs, tr, []⟩
      = (Outcome.rejected ⟨"Unable to retrieve subscriptions"⟩,
          (rlClose (settleFloating env
            { w1 with trace := w1.trace ++ [Event.interactiveLogin d] })).2)
    ∧ (listRegions env ⟨c, rs, tr, []⟩).2.trace.filter Event.isClose
      = tr.filter Event.isClose ++ [Event.rlClose]
    ∧ (listRegions env ⟨c, rs, tr, []⟩).2.trace.filter Event.isListLocations
      = tr.filter Event.isListLocations
    ∧ (listRegions env ⟨c, rs, tr, []⟩).2.trace.filter Event.isOutput
      = tr.filter Event.isOutput := by
  have hrun : listRegions env ⟨c, rs, tr, []⟩
      = (Outcome.rejected ⟨"Unable to retrieve subscriptions"⟩,
          (rlClose (settleFloating env
            { w1 with trace := w1.trace ++ [Event.interactiveLogin d] })).2) := by
    rcases hsubs with hs | hs <;>
      simp [listRegions, loginAndList, Promise.andThen, rlCreate, rlClose, emit, hflow, hs]
  have q1 := (quiet_promptForTenantId (f := Event.isClose) env (fun _ => rfl) rfl
    (fun _ => rfl) (fun _ => rfl)).of_eq hflow
  have q2 := (quiet_promptForTenantId (f := Event.isListLocations) env (fun _ => rfl) rfl
    (fun _ => rfl) (fun _ => rfl)).of_eq hflow
  have q3 := (quiet_promptForTenantId (f := Event.isOutput) env (fun _ => rfl) rfl
    (fun _ => rfl) (fun _ => rfl)).of_eq hflow
  have s1 := settleFloating_filter (f := Event.isClose) env
    { w1 with trace := w1.trace ++ [Event.interactiveLogin d] } (fun _ => rfl) (fun _ => rfl)
  have s2 := settleFloating_filter (f := Event.isListLocations) env
    { w1 with trace := w1.trace ++ [Event.interactiveLogin d] } (fun _ => rfl) (fun _ => rfl)
  have s3 := settleFloating_filter (f := Event.isOutput) env
    { w1 with trace := w1.trace ++ [Event.interactiveLogin d] } (fun _ => rfl) (fun _ => rfl)
  refine ⟨hrun, ?_, ?_, ?_⟩
  · rw [hrun]
    simp [List.filter_append, Event.isClose] at q1 s1
    simp [rlClose, emit, List.filter_append, Event.isClose, s1, q1]
  · rw [hrun]
    simp [List.filter_append, Event.isListLocations] at q2 s2
    simp [rlClose, emit, List.filter_append, Event.isListLocations, s2, q2]
  · rw [hrun]
    simp [List.filter_append, Event.isOutput] at q3 s3
    simp [rlClose, emit, List.filter_append, Event.isOutput, s3, q3]

/-- An instance of the preceding theorem: where the login yields an empty list
of subscriptions. -/
theorem listRegions_no_subscriptions_witness :
    ((noSubscriptionEnv.interactiveLogin "").subscriptions = none
      ∨ (noSubscriptionEnv.interactiveLogin "").subscriptions = some []) ∧
    listRegions noSubscriptionEnv ⟨Except.ok [], [Reply.answer ""], [], []⟩
      = (Outcome.rejected ⟨"Unable to retrieve subscriptions"⟩,
          ⟨Except.ok [], [],
            [Event.rlCreate, Event.loadConfig,
              Event.question "(optional) Tenant ID [default: none]: ",
              Event.interactiveLogin "", Event.rlClose], []⟩) :=
  ⟨Or.inr rfl,
    (listRegions_no_subscriptions noSubscriptionEnv (Except.ok []) [Reply.answer ""] [] ""
      ⟨Except.ok [], [],
        [Event.rlCreate, Event.loadConfig,
          Event.question "(optional) Tenant ID [default: none]: "], []⟩
      (by decide) (Or.inr rfl)).1.trans (by decide)⟩

/-- C8: once the tenant prompt is answered, `listRegions` settles (it resolves
after the regions are printed, or rejects for lack of subscriptions or with the
error of the listing), and on each of these paths `rl.close` is called exactly
once. -/
theorem listRegions_closes_once (env : Env) (c : Except JsError Config) (t : String)
    (rest : List Reply) (tr : List Event) :
    (listRegions env ⟨c, Reply.answer t :: rest, tr, []⟩).1 ≠ Outcome.pending
    ∧ (listRegions env ⟨c, Reply.answer t :: rest, tr, []⟩).2.trace.filter Event.isClose
      = tr.filter Event.isClose ++ [Event.rlClose] := by
  obtain ⟨d, w1, hflow⟩ := promptForTenantId_answered env c t rest (tr ++ [Event.rlCreate])
  have q1 := (quiet_promptForTenantId (f := Event.isClose) env (fun _ => rfl) rfl
    (fun _ => rfl) (fun _ => rfl)).of_eq hflow
  have hrun : listRegions env ⟨c, Reply.answer t :: rest, tr, []⟩ = loginAndList env d w1 := by
    simp [listRegions, Promise.andThen, rlCreate, emit, hflow]
  have hl := loginAndList_closes_once env d w1
  rw [hrun]
  refine ⟨hl.1, ?_⟩
  rw [hl.2, q1]
  simp [List.filter_append, Event.isClose]

end NerdCli
